import Mathlib

set_option maxRecDepth 8000
set_option maxHeartbeats 1000000

/-!
Verification development for the HuggingFace → ModelScope migration tool
(`app.py`).  The Python source is embedded shallowly: pure string
processing becomes Lean functions on `List Char` / `String`, the
collaborator calls (`snapshot_download`, `HubApi.login`, `repo_exists`,
`create_model` / `create_dataset`, `upload_folder`, `shutil.rmtree`) become
fields of an `Env` record holding each call's outcome, and the background
thread plus polling generator of `MigrationTool.migrate` becomes a pure
function from `Env` and `MigrationRequest` to a `MigrateOutcome` that
records the final yielded status, the reconciled log and the invocation
flags the claims talk about.
-/

namespace Hf2Ms

/-! ## Python string helpers -/

/-- Characters stripped by Python's `str.strip()` (ASCII whitespace subset). -/
def pyIsSpace (c : Char) : Bool :=
  c = ' ' || c = '\t' || c = '\n' || c = '\r' || c = '\x0b' || c = '\x0c'

/-- `str.strip()` on the underlying character list. -/
def pyStripList (l : List Char) : List Char :=
  ((l.dropWhile pyIsSpace).reverse.dropWhile pyIsSpace).reverse

/-- Python `s.strip()`. -/
def pyStrip (s : String) : String :=
  ⟨pyStripList s.data⟩

/-- Python `s.lower()` (ASCII). -/
def pyLower (s : String) : String :=
  ⟨s.data.map Char.toLower⟩

/-- Bool test: `p` is a leading segment of `l`. -/
def isLeadOf : List Char → List Char → Bool
  | [], _ => true
  | _ :: _, [] => false
  | a :: as, b :: bs => a == b && isLeadOf as bs

/-- Bool test: `p` occurs contiguously inside `l` (Python `p in s`). -/
def isPartOf (p : List Char) : List Char → Bool
  | [] => p.isEmpty
  | b :: bs => isLeadOf p (b :: bs) || isPartOf p bs

/-- Python substring test `p in s`. -/
def containsStr (p s : String) : Bool :=
  isPartOf p.data s.data

/-- Python `s.split(c)` on the underlying character list. -/
def splitOnChar (c : Char) : List Char → List (List Char)
  | [] => [[]]
  | a :: rest =>
    let r := splitOnChar c rest
    if a = c then [] :: r
    else
      match r with
      | [] => [[a]]
      | h :: t => (a :: h) :: t

/-- Python `"\n".join(lines)`. -/
def joinLines : List String → String
  | [] => ""
  | h :: t => t.foldl (fun acc s => acc ++ "\n" ++ s) h

/-! ## Escape-sequence normalizer

The source uses `ANSI_ESCAPE = re.compile(r'\x1B(?: Fe | CSI )')` where the
`Fe` alternative is the class 0x40-0x5A, 0x5C-0x5F and the `CSI`
alternative is `'['`, then parameter bytes 0x30-0x3F, then intermediate
bytes 0x20-0x2F, then one final byte 0x40-0x7E, and applies
`ANSI_ESCAPE.sub('', raw_msg)`.  `re.sub` removes the leftmost
non-overlapping matches in one left-to-right pass; since a match can only
start at an ESC character and the three character classes of the CSI
alternative are pairwise disjoint, the greedy scan below is exactly that
regex. -/

/-- Character class `[@-Z\\-_]` (the two-byte Fe escapes). -/
def ansiFe (c : Char) : Bool :=
  ('@' ≤ c && c ≤ 'Z') || ('\\' ≤ c && c ≤ '_')

/-- Character class `[0-?]` (CSI parameter bytes). -/
def ansiParam (c : Char) : Bool :=
  '0' ≤ c && c ≤ '?'

/-- Character class of the CSI intermediate bytes, 0x20-0x2F. -/
def ansiInter (c : Char) : Bool :=
  ' ' ≤ c && c ≤ '/'

/-- Character class `[@-~]` (CSI final bytes). -/
def ansiFinal (c : Char) : Bool :=
  '@' ≤ c && c ≤ '~'

/-- Length of the regex match starting at the head of the list, if any. -/
def ansiMatchLen : List Char → Option Nat
  | '\x1b' :: c :: rest =>
    if ansiFe c then some 2
    else if c = '[' then
      let ps := rest.takeWhile ansiParam
      let rest2 := rest.dropWhile ansiParam
      let ins := rest2.takeWhile ansiInter
      let rest3 := rest2.dropWhile ansiInter
      match rest3 with
      | f :: _ => if ansiFinal f then some (2 + ps.length + ins.length + 1) else none
      | [] => none
    else none
  | _ => none

/-- One left-to-right pass of `ANSI_ESCAPE.sub('', ·)`; fuel is the list
length, which always suffices since each step consumes at least one
character. -/
def ansiStripAux : Nat → List Char → List Char
  | 0, l => l
  | _ + 1, [] => []
  | fuel + 1, c :: rest =>
    match ansiMatchLen (c :: rest) with
    | some n => ansiStripAux fuel (rest.drop (n - 1))
    | none => c :: ansiStripAux fuel rest

/-- `ANSI_ESCAPE.sub('', s)`. -/
def ansiStrip (s : String) : String :=
  ⟨ansiStripAux s.data.length s.data⟩

/-- Does the regex match anywhere in the list? -/
def hasAnsiAux : List Char → Bool
  | [] => false
  | c :: rest => (ansiMatchLen (c :: rest)).isSome || hasAnsiAux rest

/-- `ANSI_ESCAPE.search(s) is not None`. -/
def hasAnsi (s : String) : Bool :=
  hasAnsiAux s.data

/-! ## Line reconciler (`update_output` in `migrate`) -/

/-- `'%' in clean_line and '|' in clean_line and ('[' in clean_line or ']' in clean_line)`. -/
def isProgress (s : String) : Bool :=
  s.data.contains '%' && s.data.contains '|' && (s.data.contains '[' || s.data.contains ']')

/-- Remove trailing decimal digits (`re.sub(r'\d+$', '', label)`). -/
def dropTrailingDigits (l : List Char) : List Char :=
  (l.reverse.dropWhile Char.isDigit).reverse

/-- `clean_line.split('|')[0].split('%')[0].strip()` then trailing digits
removed then `.strip()` again. -/
def labelOf (s : String) : String :=
  ⟨pyStripList (dropTrailingDigits (pyStripList ((s.data.takeWhile (· != '|')).takeWhile (· != '%'))))⟩

/-- `label and label in output_lines[i] and ('%' in output_lines[i] or '|' in output_lines[i])`. -/
def matchEntry (label entry : String) : Bool :=
  label != "" && containsStr label entry && (entry.data.contains '%' || entry.data.contains '|')

/-- Index of the first element satisfying `p`. -/
def findFirstIdx (p : α → Bool) : List α → Option Nat
  | [] => none
  | a :: l => if p a then some 0 else (findFirstIdx p l).map (· + 1)

/-- The backward scan
`for i in range(len(output_lines) - 1, max(-1, len(output_lines) - 11), -1)`:
walking the reversed buffer hits the same entries (the at most 10 most
recent ones, newest first); a hit at reversed position `j` is buffer
index `length - 1 - j`. -/
def findBack (buffer : List String) (label : String) : Option Nat :=
  match findFirstIdx (fun entry => matchEntry label entry) (buffer.reverse.take 10) with
  | some j => some (buffer.length - 1 - j)
  | none => none

/-- Processing of one candidate line inside `update_output`'s `for line in ...` loop. -/
def processLine (buffer : List String) (line : String) : List String :=
  let clean_line := pyStrip line
  if clean_line = "" then buffer
  else if isProgress clean_line then
    let label := labelOf clean_line
    match findBack buffer label with
    | some i => buffer.set i clean_line
    | none => buffer ++ [clean_line]
  else buffer ++ [clean_line]

/-- `msg.replace('\r', '\n').split('\n')`. -/
def splitLines (s : String) : List String :=
  (splitOnChar '\n' (s.data.map fun ch => if ch = '\r' then '\n' else ch)).map
    (fun l => (⟨l⟩ : String))

/-- Processing of one queue message inside `update_output`'s drain loop. -/
def processMsg (buffer : List String) (rawMsg : String) : List String :=
  let msg := ansiStrip rawMsg
  if msg = "" then buffer
  else (splitLines msg).foldl processLine buffer

/-- One `update_output()` call: drain all messages, then apply the
retention cap (`output_lines[:] = output_lines[-1000:]`). -/
def updateOutput (buffer : List String) (msgs : List String) : List String :=
  let b := msgs.foldl processMsg buffer
  if b.length > 1000 then b.drop (b.length - 1000) else b

/-! ## Migration model

Collaborator outcomes are an `Env` record: each field is the result the
corresponding external call would produce during this run.  `rmtreeOk`
says whether `shutil.rmtree` succeeds in `cleanup`; `tempDirName` is the
directory name `tempfile.mkdtemp` returns. -/

structure MigrationRequest where
  hfToken : String
  msToken : String
  hfRepoId : String
  msRepoId : String
  repoType : String
  visibility : String
  licenseType : String
  chineseName : Option String

structure Env where
  tempDirName : String
  snapshotDownload : Except String String
  login : Except String Unit
  repoExists : Except String Bool
  createModel : Except String Unit
  createDataset : Except String Unit
  uploadFolder : Except String Unit
  rmtreeOk : Bool
  rmtreeErr : String

/-- The license map of `upload_to_ms`; `Licenses.*` constants are modelled
as strings, `none` models the `"other": None` entry, and an unknown key
falls back to `Licenses.APACHE_V2` via `dict.get`'s default. -/
def licenseMap (key : String) : Option String :=
  if key = "apache-2.0" then some "APACHE_V2"
  else if key = "mit" then some "MIT"
  else if key = "gpl-2.0" then some "GPL_V2"
  else if key = "gpl-3.0" then some "GPL_V3"
  else if key = "lgpl-2.1" then some "LGPL_V2_1"
  else if key = "lgpl-3.0" then some "LGPL_V3"
  else if key = "afl-3.0" then some "AFL_V3"
  else if key = "ecl-2.0" then some "ECL_V2"
  else if key = "other" then none
  else some "APACHE_V2"

/-- `if chinese_name:` — `None` and the empty string are both falsy. -/
def optChinese : Option String → Option String
  | some n => if n = "" then none else some n
  | none => none

/-- Parameters passed to `create_model` / `create_dataset`. -/
structure CreateCall where
  repoId : String
  repoType : String
  visibility : String
  license : Option String
  chineseName : Option String

/-- Result of `MigrationTool.upload_to_ms`, plus which collaborators it invoked. -/
structure UploadOutcome where
  ok : Bool
  msg : String
  createInvoked : Bool
  uploadFolderInvoked : Bool
  createCall : Option CreateCall

/-- The final `api.upload_folder` step of `upload_to_ms`; an exception is
caught by the function's outer handler as `"✗ Upload failed: ..."`. -/
def uploadFolderStep (env : Env) (repoType : String) (created : Bool)
    (call : Option CreateCall) : UploadOutcome :=
  match env.uploadFolder with
  | .ok _ => ⟨true, "✓ Successfully uploaded " ++ repoType ++ " to ModelScope", created, true, call⟩
  | .error e => ⟨false, "✗ Upload failed: " ++ e, created, true, call⟩

/-- Body of `MigrationTool.upload_to_ms` after the token-emptiness check:
login, license mapping, existence check, conditional creation, upload. -/
def uploadBody (env : Env) (repoId : String) (repoType : String) (visibility : String)
    (licenseType : String) (chineseName : Option String) : UploadOutcome :=
  match env.login with
    | .error e =>
      ⟨false, "✗ ModelScope Login failed: " ++ e ++ "\n\n💡 Tip: Ensure you are using an 'SDK Token' from https://www.modelscope.cn (NOT modelscope.ai). The token usually starts with 'ms-'.", false, false, none⟩
    | .ok _ =>
      let lic := licenseMap (pyLower licenseType)
      match env.repoExists with
      | .error e => ⟨false, "✗ Upload failed: " ++ e, false, false, none⟩
      | .ok rexists =>
        if rexists then uploadFolderStep env repoType false none
        else if repoType = "model" then
          let vis := if visibility = "public" then "PUBLIC" else "PRIVATE"
          let call : CreateCall := ⟨repoId, "model", vis, lic, optChinese chineseName⟩
          match env.createModel with
          | .ok _ => uploadFolderStep env repoType true (some call)
          | .error e =>
            if containsStr "already exists" (pyLower e) then
              uploadFolderStep env repoType true (some call)
            else ⟨false, "✗ Failed to create repository: " ++ e, true, false, some call⟩
        else
          if (splitOnChar '/' repoId.data).length ≠ 2 then
            ⟨false, "✗ Invalid dataset ID format: " ++ repoId ++ ". Must be 'namespace/name'", false, false, none⟩
          else
            let vis := if visibility = "public" then "PUBLIC" else "PRIVATE"
            let call : CreateCall := ⟨repoId, "dataset", vis, lic, optChinese chineseName⟩
            match env.createDataset with
            | .ok _ => uploadFolderStep env repoType true (some call)
            | .error e =>
              if containsStr "already exists" (pyLower e) then
                uploadFolderStep env repoType true (some call)
              else ⟨false, "✗ Failed to create repository: " ++ e, true, false, some call⟩

/-- `MigrationTool.upload_to_ms`: strips the token, rejects an empty one,
then runs `uploadBody`.  The `localPath` argument is carried for signature
fidelity; the upload result itself is `env.uploadFolder`. -/
def MigrationTool.upload_to_ms (env : Env) (localPath : String) (repoId : String)
    (token : String) (repoType : String) (visibility : String)
    (licenseType : String) (chineseName : Option String) : UploadOutcome :=
  let _ := localPath
  let token := pyStrip token
  if token = "" then ⟨false, "✗ ModelScope token is empty", false, false, none⟩
  else uploadBody env repoId repoType visibility licenseType chineseName

/-- Result of `MigrationTool.download_from_hf`: `tempDir` is `self.temp_dir`
after the call (set by `mkdtemp` before the download), `dirExists` whether
the directory now exists on disk. -/
structure DownloadResult where
  ok : Bool
  msg : String
  localPath : Option String
  tempDir : Option String
  dirExists : Bool

/-- `MigrationTool.download_from_hf`. -/
def MigrationTool.download_from_hf (env : Env) (repoType : String) : DownloadResult :=
  let td := env.tempDirName
  match env.snapshotDownload with
  | .ok p => ⟨true, "✓ Successfully downloaded " ++ repoType ++ " from HuggingFace", some p, some td, true⟩
  | .error e => ⟨false, "✗ Download failed: " ++ e, none, some td, true⟩

/-- Result of `MigrationTool.cleanup`: warning lines printed, `self.temp_dir`
afterwards, and whether the directory still exists. -/
structure CleanupResult where
  prints : List String
  tempDir : Option String
  dirExists : Bool

/-- `MigrationTool.cleanup`: removes the temporary directory if set and
present; a `rmtree` failure only prints a warning (and leaves `temp_dir`
set, since the `self.temp_dir = None` assignment is skipped). -/
def MigrationTool.cleanup (env : Env) (tempDir : Option String) (dirExists : Bool) :
    CleanupResult :=
  match tempDir with
  | none => ⟨[], none, dirExists⟩
  | some td =>
    if dirExists then
      if env.rmtreeOk then ⟨[], none, false⟩
      else ⟨["Warning: Failed to clean up temporary directory: " ++ env.rmtreeErr ++ "\n"], some td, true⟩
    else ⟨[], some td, dirExists⟩

/-- State of `run_migration` before the `finally` block runs. -/
structure CoreOutcome where
  success : Bool
  message : String
  prints : List String
  fetchInvoked : Bool
  upload : Option UploadOutcome
  tempDir : Option String
  dirExists : Bool

/-- The `try` body of `run_migration`: validation, download, upload.  Each
`print(x)` becomes the queue message `x ++ "\n"`. -/
def runCore (env : Env) (req : MigrationRequest) : CoreOutcome :=
  let hf_token := pyStrip req.hfToken
  let ms_token := pyStrip req.msToken
  let hf_repo_id := pyStrip req.hfRepoId
  let ms_repo_id := pyStrip req.msRepoId
  if hf_token = "" ∨ ms_token = "" ∨ hf_repo_id = "" ∨ ms_repo_id = "" then
    ⟨false, "✗ Error: All tokens and repository IDs are required", [], false, none, none, false⟩
  else if '/' ∉ ms_repo_id.data then
    ⟨false, "✗ Error: ModelScope Repo ID must include your namespace (e.g., 'username/repo-name')", [], false, none, none, false⟩
  else
    let p1 := "⬇️  Starting download from HuggingFace: " ++ hf_repo_id ++ "...\n"
    let dl := MigrationTool.download_from_hf env req.repoType
    let p2 := dl.msg ++ "\n"
    if dl.ok = false then
      ⟨false, dl.msg, [p1, p2], true, none, dl.tempDir, dl.dirExists⟩
    else
      let p3 := "\n⬆️  Starting upload to ModelScope: " ++ ms_repo_id ++ "...\n"
      let up := MigrationTool.upload_to_ms env (dl.localPath.getD "") ms_repo_id ms_token
        req.repoType req.visibility req.licenseType req.chineseName
      let p4 := up.msg ++ "\n"
      ⟨up.ok, up.msg, [p1, p2, p3, p4], true, some up, dl.tempDir, dl.dirExists⟩

/-- Observable outcome of the `run_migration` thread body, `finally` included. -/
structure RunOutcome where
  success : Bool
  message : String
  prints : List String
  fetchInvoked : Bool
  upload : Option UploadOutcome
  dirCreated : Bool
  dirExistsAfter : Bool
  cleanupInvoked : Bool

/-- `run_migration`: the `try` body followed by the unconditional `finally`
block, which prints the cleaning banner, runs `cleanup` and prints the
completion line. -/
def run_migration (env : Env) (req : MigrationRequest) : RunOutcome :=
  let core := runCore env req
  let cl := MigrationTool.cleanup env core.tempDir core.dirExists
  ⟨core.success, core.message,
   core.prints ++ ["\n🧹 Cleaning up temporary files...\n"] ++ cl.prints ++ ["✓ Cleanup complete\n"],
   core.fetchInvoked, core.upload, core.tempDir.isSome, cl.dirExists, true⟩

/-- Observable outcome of the `migrate` generator: the thread result, the
reconciled log after the final drain, and the last yielded value. -/
structure MigrateOutcome where
  run : RunOutcome
  threadStarted : Bool
  logLines : List String
  finalStatus : String

/-- `MigrationTool.migrate`: starts the background thread unconditionally
(`thread.start()` precedes the polling loop), reconciles everything the
thread printed, and appends the terminal verdict to the last yield.
Batching of the drains does not change the final buffer, so the polling
loop plus final drain is modelled as one `updateOutput` over all prints. -/
def MigrationTool.migrate (env : Env) (req : MigrationRequest) : MigrateOutcome :=
  let run := run_migration env req
  let lines := updateOutput [] run.prints
  let logStr := joinLines lines
  let finalStatus :=
    if run.success then
      logStr ++ "\n\n✅ Migration completed successfully!"
        ++ ("\nYour " ++ req.repoType ++ " is available at: https://www.modelscope.cn/models/"
            ++ pyStrip req.msRepoId)
    else
      logStr ++ ("\n\n❌ Migration failed: " ++ run.message)
  ⟨run, true, lines, finalStatus⟩

/-- Refinement-side definition following the spec's words: the first fatal
error message the upload stage with these collaborator outcomes
encounters, `none` if uploading succeeds.  A tolerated "already exists"
creation conflict is not fatal. -/
def uploadFirstError (env : Env) (repoId repoType : String) : Option String :=
  match env.login with
  | .error e => some e
  | .ok _ =>
    match env.repoExists with
    | .error e => some e
    | .ok rexists =>
      let createErr : Option String :=
        if rexists then none
        else if repoType = "model" then
          match env.createModel with
          | .error e => if containsStr "already exists" (pyLower e) then none else some e
          | .ok _ => none
        else if (splitOnChar '/' repoId.data).length ≠ 2 then
          some ("✗ Invalid dataset ID format: " ++ repoId ++ ". Must be 'namespace/name'")
        else
          match env.createDataset with
          | .error e => if containsStr "already exists" (pyLower e) then none else some e
          | .ok _ => none
      match createErr with
      | some e => some e
      | none =>
        match env.uploadFolder with
        | .error e => some e
        | .ok _ => none

/-- Refinement-side definition following the spec's words (section 7,
"the first fatal error short-circuits the state machine ... carrying the
collaborator's message verbatim"): the first fatal error message a run
with these collaborator outcomes encounters, `none` if the run succeeds.
Validation failures carry their user-facing error line; collaborator
failures carry the collaborator's message itself. -/
def firstFatalError (env : Env) (req : MigrationRequest) : Option String :=
  let hf_token := pyStrip req.hfToken
  let ms_token := pyStrip req.msToken
  let hf_repo_id := pyStrip req.hfRepoId
  let ms_repo_id := pyStrip req.msRepoId
  if hf_token = "" ∨ ms_token = "" ∨ hf_repo_id = "" ∨ ms_repo_id = "" then
    some "✗ Error: All tokens and repository IDs are required"
  else if '/' ∉ ms_repo_id.data then
    some "✗ Error: ModelScope Repo ID must include your namespace (e.g., 'username/repo-name')"
  else
    match env.snapshotDownload with
    | .error e => some e
    | .ok _ => uploadFirstError env ms_repo_id req.repoType

/-- An environment in which every collaborator succeeds and the destination
repository already exists. -/
def okEnv : Env :=
  ⟨"/tmp/hf2ms_a1", .ok "/tmp/hf2ms_a1", .ok (), .ok true, .ok (), .ok (), .ok (), true, "oserr"⟩

/-- The end-to-end request of the spec: `org/modelA` to `me/modelA`, model, public. -/
def reqModelA : MigrationRequest :=
  ⟨"hf_tokA", "ms-tokA", "org/modelA", "me/modelA", "model", "public", "apache-2.0", none⟩

/-- An all-succeeding environment in which the destination does not exist yet. -/
def dsEnv : Env :=
  ⟨"/tmp/hf2ms_b2", .ok "/tmp/hf2ms_b2", .ok (), .ok false, .ok (), .ok (), .ok (), true, "busy"⟩

/-- A dataset migration request. -/
def dsReq : MigrationRequest :=
  ⟨"hf_tokB", "ms-tokB", "org/dataB", "me/dataB", "dataset", "private", "mit", none⟩

/-! ## Basic bridging lemmas -/

theorem str_eq_iff_data {s t : String} : s = t ↔ s.data = t.data :=
  ⟨fun h => h ▸ rfl, String.ext⟩

theorem isLeadOf_iff {p l : List Char} : isLeadOf p l = true ↔ p <+: l := by
  induction p generalizing l with
  | nil => simp [isLeadOf, List.nil_prefix]
  | cons a as ih =>
    cases l with
    | nil => simp [isLeadOf, List.prefix_nil]
    | cons b bs => simp [isLeadOf, List.cons_prefix_cons, ih, Bool.and_eq_true]

theorem isPartOf_iff {p l : List Char} : isPartOf p l = true ↔ p <:+: l := by
  induction l with
  | nil => simp [isPartOf, List.infix_nil, List.isEmpty_iff]
  | cons b bs ih =>
    simp [isPartOf, List.infix_cons_iff, isLeadOf_iff, ih, Bool.or_eq_true]

theorem containsStr_iff {p s : String} : containsStr p s = true ↔ p.data <:+: s.data :=
  isPartOf_iff

/-! ## ANSI normalizer lemmas -/

theorem ansiStripAux_of_not_hasAnsi : ∀ (fuel : Nat) (l : List Char),
    hasAnsiAux l = false → ansiStripAux fuel l = l := by
  intro fuel
  induction fuel with
  | zero => intro l _; rfl
  | succ n ih =>
    intro l h
    cases l with
    | nil => rfl
    | cons c rest =>
      simp only [hasAnsiAux, Bool.or_eq_false_iff] at h
      have h1 : ansiMatchLen (c :: rest) = none := by
        cases hm : ansiMatchLen (c :: rest) with
        | none => rfl
        | some k => rw [hm] at h; simp at h
      simp only [ansiStripAux, h1, ih rest h.2]

theorem ansiStrip_of_not_hasAnsi {s : String} (h : hasAnsi s = false) : ansiStrip s = s := by
  cases s with
  | mk data => exact str_eq_iff_data.mpr (ansiStripAux_of_not_hasAnsi data.length data h)

theorem ansiStripAux_sublist : ∀ (fuel : Nat) (l : List Char),
    (ansiStripAux fuel l).Sublist l := by
  intro fuel
  induction fuel with
  | zero => intro l; exact List.Sublist.refl l
  | succ n ih =>
    intro l
    cases l with
    | nil => exact List.Sublist.refl []
    | cons c rest =>
      simp only [ansiStripAux]
      cases ansiMatchLen (c :: rest) with
      | some k =>
        simp only
        exact ((ih (rest.drop (k - 1))).trans (List.drop_sublist _ rest)).trans
          (List.sublist_cons_self c rest)
      | none => exact List.Sublist.cons₂ c (ih rest)

/-! ## Strip lemmas -/

theorem dropWhile_head?_false {p : α → Bool} : ∀ (l : List α) (a : α),
    (l.dropWhile p).head? = some a → p a = false := by
  intro l
  induction l with
  | nil => intro a h; simp at h
  | cons b bs ih =>
    intro a h
    rw [List.dropWhile_cons] at h
    by_cases hb : p b = true
    · exact ih a (by simpa [hb] using h)
    · simp only [hb, if_false] at h
      simp only [Bool.not_eq_true] at hb
      obtain rfl : b = a := by simpa using h
      exact hb

theorem dropWhile_eq_self_of_head {p : α → Bool} {l : List α}
    (h : ∀ a, l.head? = some a → p a = false) : l.dropWhile p = l := by
  cases l with
  | nil => rfl
  | cons b bs => rw [List.dropWhile_cons, h b rfl]; simp

theorem suffix_head?_reverse {l s : List α} (hs : s <:+ l) (hne : s ≠ []) :
    s.reverse.head? = l.reverse.head? := by
  obtain ⟨t, rfl⟩ := hs
  rw [List.reverse_append, List.head?_append_of_ne_nil]
  simpa [List.reverse_eq_nil_iff] using hne

theorem pyStripList_idem (l : List Char) : pyStripList (pyStripList l) = pyStripList l := by
  unfold pyStripList
  set u := l.dropWhile pyIsSpace with hu
  set v := (u.reverse.dropWhile pyIsSpace) with hv
  by_cases hvnil : v = []
  · simp [hvnil]
  · have hfront_u : ∀ a, u.head? = some a → pyIsSpace a = false := fun a ha =>
      dropWhile_head?_false l a ha
    have hfront_v : ∀ a, v.head? = some a → pyIsSpace a = false := fun a ha =>
      dropWhile_head?_false u.reverse a ha
    -- first inner strip: v.reverse has a non-space head (the head of u)
    have hvr : v.reverse.head? = u.head? := by
      have := suffix_head?_reverse (List.dropWhile_suffix (l := u.reverse) pyIsSpace) hvnil
      rwa [List.reverse_reverse] at this
    have h1 : v.reverse.dropWhile pyIsSpace = v.reverse := by
      apply dropWhile_eq_self_of_head
      intro a ha
      exact hfront_u a (hvr ▸ ha)
    rw [h1, List.reverse_reverse]
    rw [dropWhile_eq_self_of_head hfront_v]

theorem pyStrip_idem (s : String) : pyStrip (pyStrip s) = pyStrip s := by
  cases s with
  | mk data => exact str_eq_iff_data.mpr (pyStripList_idem data)

/-! ## splitLines and plain lines -/

theorem splitOnChar_of_not_mem {c : Char} : ∀ {l : List Char}, c ∉ l →
    splitOnChar c l = [l] := by
  intro l
  induction l with
  | nil => intro _; rfl
  | cons a rest ih =>
    intro h
    have hac : ¬ a = c := fun hh => h (hh ▸ List.mem_cons_self a rest)
    have hrest : c ∉ rest := fun hh => h (List.mem_cons_of_mem a hh)
    simp [splitOnChar, hac, ih hrest]

theorem splitLines_single {s : String} (hn : '\n' ∉ s.data) (hr : '\r' ∉ s.data) :
    splitLines s = [s] := by
  have hmap : s.data.map (fun ch => if ch = '\r' then '\n' else ch) = s.data := by
    have hfix : ∀ a ∈ s.data, (if a = '\r' then '\n' else a) = id a := by
      intro a ha
      have : ¬ a = '\r' := fun h => hr (h ▸ ha)
      simp [this]
    rw [List.map_congr_left hfix, List.map_id]
  unfold splitLines
  rw [hmap, splitOnChar_of_not_mem hn]
  rfl

/-! ## findFirstIdx characterization -/

theorem findFirstIdx_eq_none_of {p : α → Bool} : ∀ {l : List α},
    (∀ x ∈ l, p x = false) → findFirstIdx p l = none := by
  intro l
  induction l with
  | nil => intro _; rfl
  | cons a rest ih =>
    intro h
    have ha : p a = false := h a (List.mem_cons_self a rest)
    simp [findFirstIdx, ha, ih fun x hx => h x (List.mem_cons_of_mem a hx)]

theorem findFirstIdx_eq_some_of {p : α → Bool} : ∀ {l : List α} {k : Nat}
    (hk : k < l.length), p (l.get ⟨k, hk⟩) = true →
    (∀ j (hj : j < k), p (l.get ⟨j, Nat.lt_trans hj hk⟩) = false) →
    findFirstIdx p l = some k := by
  intro l
  induction l with
  | nil => intro k hk; exact absurd hk (Nat.not_lt_zero k)
  | cons a rest ih =>
    intro k hk hpk hbefore
    cases k with
    | zero => simp [findFirstIdx, hpk.symm ▸ hpk]; simpa using hpk
    | succ k' =>
      have ha : p a = false := hbefore 0 (Nat.succ_pos k')
      have hk' : k' < rest.length := Nat.lt_of_succ_lt_succ hk
      have hrec := ih hk' (by simpa using hpk)
        (fun j hj => by simpa using hbefore (j + 1) (Nat.succ_lt_succ hj))
      simp [findFirstIdx, ha, hrec]

/-! ## The reconciler appends plain lines -/

/-- A message that is one plain log line: non-empty, already stripped, no
escape sequences, no line separators, not a progress line. -/
@[reducible] def plainLine (l : String) : Prop :=
  l ≠ "" ∧ pyStrip l = l ∧ isProgress l = false ∧ hasAnsi l = false ∧
    '\n' ∉ l.data ∧ '\r' ∉ l.data

theorem processLine_plain {buffer : List String} {l : String} (h1 : pyStrip l = l)
    (h2 : l ≠ "") (h3 : isProgress l = false) :
    processLine buffer l = buffer ++ [l] := by
  unfold processLine
  rw [h1, if_neg h2, h3]
  simp

theorem processMsg_plain {buffer : List String} {l : String} (h : plainLine l) :
    processMsg buffer l = buffer ++ [l] := by
  obtain ⟨h1, h2, h3, h4, h5, h6⟩ := h
  unfold processMsg
  rw [ansiStrip_of_not_hasAnsi h4, if_neg h1, splitLines_single h5 h6]
  simp only [List.foldl_cons, List.foldl_nil]
  exact processLine_plain h2 h1 h3

theorem foldl_processMsg_plain : ∀ {ls : List String}, (∀ l ∈ ls, plainLine l) →
    ∀ (b : List String), ls.foldl processMsg b = b ++ ls := by
  intro ls
  induction ls with
  | nil => intro _ b; simp
  | cons a rest ih =>
    intro h b
    rw [List.foldl_cons, processMsg_plain (h a (List.mem_cons_self a rest)),
      ih (fun l hl => h l (List.mem_cons_of_mem a hl)) (b ++ [a])]
    simp

theorem updateOutput_length_le (buffer msgs : List String) :
    (updateOutput buffer msgs).length ≤ 1000 := by
  unfold updateOutput
  set b := msgs.foldl processMsg buffer with hb
  by_cases h : b.length > 1000
  · simp only [h, if_true, List.length_drop]
    omega
  · simp only [h, if_false]
    omega

/-! ## findBack characterization -/

theorem matchEntry_iff {label entry : String} :
    matchEntry label entry = true ↔
      label ≠ "" ∧ label.data <:+: entry.data ∧ ('%' ∈ entry.data ∨ '|' ∈ entry.data) := by
  simp [matchEntry, containsStr_iff, Bool.and_eq_true, Bool.or_eq_true, bne_iff_ne, and_assoc]

theorem findBack_eq_none {buffer : List String} {lab : String}
    (h : ∀ i (hi : i < buffer.length), buffer.length ≤ i + 10 →
      matchEntry lab (buffer.get ⟨i, hi⟩) = false) :
    findBack buffer lab = none := by
  unfold findBack
  rw [findFirstIdx_eq_none_of]
  intro x hx
  rw [List.mem_iff_getElem] at hx
  obtain ⟨j, hj, hxeq⟩ := hx
  have hj2 : j < 10 ∧ j < buffer.length := by
    rw [List.length_take, List.length_reverse, lt_min_iff] at hj
    exact hj
  have hival : buffer.length - 1 - j < buffer.length := by omega
  have hx2 : x = buffer.get ⟨buffer.length - 1 - j, hival⟩ := by
    rw [← hxeq, List.get_eq_getElem, List.getElem_take, List.getElem_reverse]
  rw [hx2]
  exact h _ _ (by omega)

theorem findBack_eq_some {buffer : List String} {lab : String} {i : Nat}
    (hi : i < buffer.length) (hwin : buffer.length ≤ i + 10)
    (hmatch : matchEntry lab (buffer.get ⟨i, hi⟩) = true)
    (hafter : ∀ j (hj : j < buffer.length), i < j →
      matchEntry lab (buffer.get ⟨j, hj⟩) = false) :
    findBack buffer lab = some i := by
  unfold findBack
  have hklen : buffer.length - 1 - i < (buffer.reverse.take 10).length := by
    rw [List.length_take, List.length_reverse, lt_min_iff]
    omega
  have hget : (buffer.reverse.take 10).get ⟨buffer.length - 1 - i, hklen⟩
      = buffer.get ⟨i, hi⟩ := by
    rw [List.get_eq_getElem, List.getElem_take, List.getElem_reverse]
    congr 1
    show buffer.length - 1 - (buffer.length - 1 - i) = i
    omega
  have heq : findFirstIdx (fun entry => matchEntry lab entry) (buffer.reverse.take 10)
      = some (buffer.length - 1 - i) := by
    apply findFirstIdx_eq_some_of hklen
    · rw [hget]
      exact hmatch
    · intro j hj
      have hjlen : j < (buffer.reverse.take 10).length := Nat.lt_trans hj hklen
      have hj2 : j < 10 ∧ j < buffer.length := by
        rw [List.length_take, List.length_reverse, lt_min_iff] at hjlen
        exact hjlen
      have hival : buffer.length - 1 - j < buffer.length := by omega
      have hg : (buffer.reverse.take 10).get ⟨j, hjlen⟩
          = buffer.get ⟨buffer.length - 1 - j, hival⟩ := by
        rw [List.get_eq_getElem, List.getElem_take, List.getElem_reverse]
        rfl
      rw [hg]
      exact hafter _ _ (by omega)
  rw [heq]
  simp only [Option.some.injEq]
  omega

/-! ## Failure refinement: the code's messages carry the first fatal error -/

theorem uploadFolderStep_ok_iff {env : Env} {repoType : String} {created : Bool}
    {call : Option CreateCall} :
    (uploadFolderStep env repoType created call).ok = true ↔
      ∃ u, env.uploadFolder = Except.ok u := by
  unfold uploadFolderStep
  cases hup : env.uploadFolder with
  | ok u => simp
  | error e => simp

theorem uploadFolderStep_failure {env : Env} {repoType : String} {created : Bool}
    {call : Option CreateCall}
    (h : (uploadFolderStep env repoType created call).ok = false) :
    ∃ e, env.uploadFolder = Except.error e ∧
      e.data <:+: (uploadFolderStep env repoType created call).msg.data := by
  revert h
  unfold uploadFolderStep
  cases hup : env.uploadFolder with
  | ok u => intro h; simp at h
  | error e =>
    intro _
    refine ⟨e, rfl, ?_⟩
    show e.data <:+: ("✗ Upload failed: " ++ e).data
    rw [String.data_append]
    exact (List.suffix_append _ _).isInfix

theorem upload_to_ms_failure {env : Env} {localPath repoId token repoType visibility
    licenseType : String} {cn : Option String} (htok : ¬ pyStrip token = "")
    (h : (MigrationTool.upload_to_ms env localPath repoId token repoType visibility
      licenseType cn).ok = false) :
    ∃ e, uploadFirstError env repoId repoType = some e ∧
      e.data <:+: (MigrationTool.upload_to_ms env localPath repoId token repoType visibility
        licenseType cn).msg.data := by
  have hupm : MigrationTool.upload_to_ms env localPath repoId token repoType visibility
      licenseType cn = uploadBody env repoId repoType visibility licenseType cn := by
    unfold MigrationTool.upload_to_ms
    rw [if_neg htok]
  rw [hupm] at h ⊢
  unfold uploadBody at h ⊢
  unfold uploadFirstError
  revert h
  cases hlg : env.login with
  | error e =>
    intro _
    refine ⟨e, rfl, ?_⟩
    show e.data <:+: ("✗ ModelScope Login failed: " ++ e ++ "\n\n💡 Tip: Ensure you are using an 'SDK Token' from https://www.modelscope.cn (NOT modelscope.ai). The token usually starts with 'ms-'.").data
    rw [String.data_append, String.data_append]
    exact List.infix_append _ _ _
  | ok u =>
    cases hre : env.repoExists with
    | error e =>
      intro _
      refine ⟨e, rfl, ?_⟩
      show e.data <:+: ("✗ Upload failed: " ++ e).data
      rw [String.data_append]
      exact (List.suffix_append _ _).isInfix
    | ok rexists =>
      cases rexists with
      | true =>
        intro h
        replace h : (uploadFolderStep env repoType false none).ok = false := h
        obtain ⟨e, he, hinf⟩ := uploadFolderStep_failure h
        exact ⟨e, by rw [he]; try rfl, hinf⟩
      | false =>
        dsimp only
        simp only [Bool.false_eq_true, if_false]
        by_cases hrt : repoType = "model"
        · rw [if_pos hrt, if_pos hrt]
          cases hcm : env.createModel with
          | ok u2 =>
            dsimp only
            intro h
            obtain ⟨e, he, hinf⟩ := uploadFolderStep_failure h
            exact ⟨e, by rw [he]; try rfl, hinf⟩
          | error e =>
            dsimp only
            by_cases htol : containsStr "already exists" (pyLower e) = true
            · rw [if_pos htol, if_pos htol]
              intro h
              obtain ⟨e2, he2, hinf⟩ := uploadFolderStep_failure h
              exact ⟨e2, by rw [he2]; try rfl, hinf⟩
            · rw [if_neg htol, if_neg htol]
              intro h
              refine ⟨e, rfl, ?_⟩
              show e.data <:+: ("✗ Failed to create repository: " ++ e).data
              rw [String.data_append]
              exact (List.suffix_append _ _).isInfix
        · rw [if_neg hrt, if_neg hrt]
          by_cases hp2 : (splitOnChar '/' repoId.data).length ≠ 2
          · rw [if_pos hp2, if_pos hp2]
            intro h
            exact ⟨_, rfl, List.infix_rfl⟩
          · rw [if_neg hp2, if_neg hp2]
            cases hcd : env.createDataset with
            | ok u2 =>
              dsimp only
              intro h
              obtain ⟨e, he, hinf⟩ := uploadFolderStep_failure h
              exact ⟨e, by rw [he]; try rfl, hinf⟩
            | error e =>
              dsimp only
              by_cases htol : containsStr "already exists" (pyLower e) = true
              · rw [if_pos htol, if_pos htol]
                intro h
                obtain ⟨e2, he2, hinf⟩ := uploadFolderStep_failure h
                exact ⟨e2, by rw [he2]; try rfl, hinf⟩
              · rw [if_neg htol, if_neg htol]
                intro h
                refine ⟨e, rfl, ?_⟩
                show e.data <:+: ("✗ Failed to create repository: " ++ e).data
                rw [String.data_append]
                exact (List.suffix_append _ _).isInfix

theorem runCore_failure_first_error (env : Env) (req : MigrationRequest)
    (h : (runCore env req).success = false) :
    ∃ e, firstFatalError env req = some e ∧ e.data <:+: (runCore env req).message.data := by
  revert h
  unfold runCore firstFatalError
  by_cases hv1 : pyStrip req.hfToken = "" ∨ pyStrip req.msToken = "" ∨
      pyStrip req.hfRepoId = "" ∨ pyStrip req.msRepoId = ""
  · rw [if_pos hv1, if_pos hv1]
    intro _
    exact ⟨_, rfl, List.infix_rfl⟩
  · rw [if_neg hv1, if_neg hv1]
    by_cases hv2 : '/' ∉ (pyStrip req.msRepoId).data
    · rw [if_pos hv2, if_pos hv2]
      intro _
      exact ⟨_, rfl, List.infix_rfl⟩
    · rw [if_neg hv2, if_neg hv2]
      unfold MigrationTool.download_from_hf
      cases hdl : env.snapshotDownload with
      | error e =>
        dsimp only
        intro _
        refine ⟨e, rfl, ?_⟩
        show e.data <:+: ("✗ Download failed: " ++ e).data
        rw [String.data_append]
        exact (List.suffix_append _ _).isInfix
      | ok p =>
        dsimp only
        simp only [Bool.true_eq_false, if_false]
        intro h
        have htok2 : ¬ pyStrip (pyStrip req.msToken) = "" := by
          rw [pyStrip_idem]
          push_neg at hv1
          exact hv1.2.1
        exact upload_to_ms_failure htok2 h

theorem run_failure_first_error (env : Env) (req : MigrationRequest)
    (h : (run_migration env req).success = false) :
    ∃ e, firstFatalError env req = some e ∧
      e.data <:+: (run_migration env req).message.data := by
  exact runCore_failure_first_error env req h

theorem migrate_success_shape {env : Env} {req : MigrationRequest}
    (h : (run_migration env req).success = true) :
    (MigrationTool.migrate env req).finalStatus
      = joinLines (updateOutput [] (run_migration env req).prints)
        ++ "\n\n✅ Migration completed successfully!"
        ++ ("\nYour " ++ req.repoType ++ " is available at: https://www.modelscope.cn/models/"
            ++ pyStrip req.msRepoId) := by
  unfold MigrationTool.migrate
  dsimp only
  rw [if_pos h]

theorem migrate_failure_shape {env : Env} {req : MigrationRequest}
    (h : (run_migration env req).success = false) :
    (MigrationTool.migrate env req).finalStatus
      = joinLines (updateOutput [] (run_migration env req).prints)
        ++ ("\n\n❌ Migration failed: " ++ (run_migration env req).message) := by
  unfold MigrationTool.migrate
  dsimp only
  rw [if_neg]
  rw [h]
  exact Bool.false_ne_true

/-! ## Claim C1 -/

/-- C1, counterexample to the claim as stated: for a request whose
ModelScope token is blank (invalid after trimming) the migration still
starts its background task (`thread.start()` precedes validation, which
runs inside `run_migration` on that thread), so "no background task
started" is false; `fetch_snapshot` is indeed never invoked. -/
theorem C1_thread_started_counterexample :
    pyStrip "   " = ""
    ∧ (MigrationTool.migrate okEnv
        ⟨"hf_x", "   ", "org/a", "me/a", "model", "public", "apache-2.0", none⟩).threadStarted
        = true
    ∧ (MigrationTool.migrate okEnv
        ⟨"hf_x", "   ", "org/a", "me/a", "model", "public", "apache-2.0", none⟩).run.fetchInvoked
        = false := by
  refine ⟨by decide, rfl, by decide⟩

/-- C1 (amended): for every request with a missing (empty after trimming)
credential or repository id, or whose destination id lacks '/', the run
fails, `fetch_snapshot` (the HuggingFace download) is never invoked and no
upload is attempted — but the background task is still started, since
validation happens inside it. -/
theorem C1_validation_failed_no_fetch (env : Env) (req : MigrationRequest)
    (h : pyStrip req.hfToken = "" ∨ pyStrip req.msToken = "" ∨ pyStrip req.hfRepoId = "" ∨
      pyStrip req.msRepoId = "" ∨ '/' ∉ (pyStrip req.msRepoId).data) :
    (MigrationTool.migrate env req).run.success = false
    ∧ (MigrationTool.migrate env req).run.fetchInvoked = false
    ∧ (MigrationTool.migrate env req).run.upload = none
    ∧ (MigrationTool.migrate env req).threadStarted = true := by
  suffices hs : (runCore env req).success = false ∧ (runCore env req).fetchInvoked = false
      ∧ (runCore env req).upload = none by
    exact ⟨hs.1, hs.2.1, hs.2.2, rfl⟩
  unfold runCore
  by_cases hv1 : pyStrip req.hfToken = "" ∨ pyStrip req.msToken = "" ∨
      pyStrip req.hfRepoId = "" ∨ pyStrip req.msRepoId = ""
  · rw [if_pos hv1]
    exact ⟨rfl, rfl, rfl⟩
  · have hv2 : '/' ∉ (pyStrip req.msRepoId).data := by tauto
    rw [if_neg hv1, if_pos hv2]
    exact ⟨rfl, rfl, rfl⟩

/-- Witness for C1's amended theorem at a destination id with no namespace. -/
theorem C1_validation_witness :
    (MigrationTool.migrate okEnv
      ⟨"hf_x", "ms_y", "org/a", "meNoSlash", "model", "public", "apache-2.0", none⟩).run.success
      = false :=
  (C1_validation_failed_no_fetch okEnv
    ⟨"hf_x", "ms_y", "org/a", "meNoSlash", "model", "public", "apache-2.0", none⟩
    (by decide)).1

/-! ## Claim C2 -/

/-- C2, counterexample to the claim as stated: the spec's three sample
fragments contain no bracket character, so the code classifies each as a
plain line and appends all three — the buffer ends with three entries,
not one. -/
theorem C2_three_entries_counterexample :
    updateOutput []
      ["Downloading: 10%|##    |\r", "Downloading: 55%|#####  |\r",
        "Downloading: 100%|#######|\n"]
      = ["Downloading: 10%|##    |", "Downloading: 55%|#####  |", "Downloading: 100%|#######|"]
    ∧ (updateOutput []
        ["Downloading: 10%|##    |\r", "Downloading: 55%|#####  |\r",
          "Downloading: 100%|#######|\n"]).length = 3 := by
  refine ⟨by decide, by decide⟩

/-- C2 (amended): the three sample fragments lack a bracket, so they are
appended as three separate plain entries; when each fragment additionally
carries a bracketed segment (as real download progress lines do), the
Reconciler yields exactly one entry whose label is `Downloading:` and
whose final content is the 100% line. -/
theorem C2_progress_merge_amended :
    updateOutput []
      ["Downloading: 10%|##    | [00:01]\r", "Downloading: 55%|#####  | [00:11]\r",
        "Downloading: 100%|#######| [00:21]\n"]
      = ["Downloading: 100%|#######| [00:21]"]
    ∧ labelOf "Downloading: 100%|#######| [00:21]" = "Downloading:"
    ∧ (updateOutput []
        ["Downloading: 10%|##    |\r", "Downloading: 55%|#####  |\r",
          "Downloading: 100%|#######|\n"]).length = 3 := by
  refine ⟨by decide, by decide, by decide⟩

/-! ## Claim C3 -/

/-- C3: a non-empty candidate line is classified as progress iff it
contains a percent sign, a vertical bar, and at least one bracket
character; a line missing any of the three is appended unconditionally as
a plain entry, whatever the buffer holds. -/
theorem C3_progress_classification (line : String) (buffer : List String)
    (h : pyStrip line ≠ "") :
    (isProgress (pyStrip line) = true ↔
      '%' ∈ (pyStrip line).data ∧ '|' ∈ (pyStrip line).data ∧
        ('[' ∈ (pyStrip line).data ∨ ']' ∈ (pyStrip line).data))
    ∧ (isProgress (pyStrip line) = false →
        processLine buffer line = buffer ++ [pyStrip line]) := by
  constructor
  · simp [isProgress, Bool.and_eq_true, Bool.or_eq_true, and_assoc]
  · intro h3
    unfold processLine
    dsimp only
    rw [if_neg h, h3]
    simp

/-- Witness for C3 at a plain line containing none of the three markers. -/
theorem C3_witness :
    processLine [] "hello world" = [] ++ [pyStrip "hello world"] :=
  (C3_progress_classification "hello world" [] (by decide)).2 (by decide)

/-! ## Claim C5 -/

/-- C5: after every Reconciler update the buffer holds at most 1000
entries, and feeding 1500 plain lines to an empty buffer retains exactly
the most recent 1000 in original order (`drop 500` of the input). -/
theorem C5_retention_cap :
    (∀ (buffer msgs : List String), (updateOutput buffer msgs).length ≤ 1000)
    ∧ (∀ ls : List String, ls.length = 1500 → (∀ l ∈ ls, plainLine l) →
        updateOutput [] ls = ls.drop 500) := by
  constructor
  · exact updateOutput_length_le
  · intro ls hlen hplain
    unfold updateOutput
    rw [foldl_processMsg_plain hplain []]
    simp only [List.nil_append]
    rw [hlen]
    norm_num

/-- Witness for C5 with 1500 copies of one plain line. -/
theorem C5_witness :
    updateOutput [] (List.replicate 1500 "copying shard")
      = (List.replicate 1500 "copying shard").drop 500 :=
  C5_retention_cap.2 (List.replicate 1500 "copying shard") (by simp)
    (by
      intro l hl
      rw [(List.mem_replicate.mp hl).2]
      decide)

/-! ## Claim C6 -/

/-- C6, counterexample to the claim as stated: on `"\x1b\x1bAA"` the
single-pass substitution leaves `"\x1bA"`, which itself matches the
escape-sequence pattern — the output does not always contain zero control
sequences. -/
theorem C6_residual_sequence_counterexample :
    ansiStrip "\x1b\x1bAA" = "\x1bA"
    ∧ hasAnsi (ansiStrip "\x1b\x1bAA") = true := by
  refine ⟨by decide, by decide⟩

/-- C6 (amended): the Normalizer is total, returns a fragment containing
no escape sequence unchanged, and only ever removes characters (the
remaining text is an in-order byte-exact subsequence of the input); it
removes the leftmost non-overlapping matches in one pass, so an output
may still contain a sequence formed by juxtaposition after removal. -/
theorem C6_normalizer_amended :
    (∀ s : String, hasAnsi s = false → ansiStrip s = s)
    ∧ (∀ s : String, (ansiStrip s).data.Sublist s.data)
    ∧ ansiStrip "\x1b[2K\x1b[31mDone\x1b[0m 100%" = "Done 100%" :=
  ⟨fun _ h => ansiStrip_of_not_hasAnsi h, fun s => ansiStripAux_sublist s.data.length s.data,
    by decide⟩

/-- Witness for C6 at a fragment with no escape sequences. -/
theorem C6_witness :
    ansiStrip "plain text, no escapes" = "plain text, no escapes" :=
  C6_normalizer_amended.1 "plain text, no escapes" (by decide)

/-! ## Claim C4 -/

/-- C4, counterexample to the claim as stated: the incoming progress line
`"Task: 50%|##|[x]"` (label `Task:`) overwrites the buffer entry
`"Task: 10% done"` even though that entry is not a progress line under the
classification (no bar, no bracket) — the code's overwrite condition only
demands a percent sign or a bar in the entry, not the full triple. -/
theorem C4_nonprogress_overwrite_counterexample :
    processLine ["Task: 10% done"] "Task: 50%|##|[x]" = ["Task: 50%|##|[x]"]
    ∧ isProgress "Task: 10% done" = false
    ∧ isProgress "Task: 50%|##|[x]" = true
    ∧ labelOf "Task: 50%|##|[x]" = "Task:" := by
  refine ⟨by decide, by decide, by decide, by decide⟩

/-- C4 (amended): for a progress line, the Reconciler derives the label as
the substring before the first bar, truncated at the first percent sign,
trailing digits stripped and whitespace trimmed (`labelOf`); it scans
backward through at most the 10 most recent entries and overwrites in
place the first entry that contains the non-empty label and itself
contains a percent sign or a vertical bar (not necessarily a full
progress line); it appends when no entry in the window qualifies, and an
empty label never matches any entry. -/
theorem C4_lookback_overwrite_amended (buffer : List String) (line : String)
    (hp : isProgress (pyStrip line) = true) :
    (labelOf (pyStrip line) = "" → processLine buffer line = buffer ++ [pyStrip line])
    ∧ ((∀ i (hi : i < buffer.length), buffer.length ≤ i + 10 →
          ¬ (labelOf (pyStrip line) ≠ ""
             ∧ (labelOf (pyStrip line)).data <:+: (buffer.get ⟨i, hi⟩).data
             ∧ ('%' ∈ (buffer.get ⟨i, hi⟩).data ∨ '|' ∈ (buffer.get ⟨i, hi⟩).data))) →
        processLine buffer line = buffer ++ [pyStrip line])
    ∧ (∀ i (hi : i < buffer.length), buffer.length ≤ i + 10 →
        (labelOf (pyStrip line) ≠ ""
          ∧ (labelOf (pyStrip line)).data <:+: (buffer.get ⟨i, hi⟩).data
          ∧ ('%' ∈ (buffer.get ⟨i, hi⟩).data ∨ '|' ∈ (buffer.get ⟨i, hi⟩).data)) →
        (∀ j (hj : j < buffer.length), i < j →
          ¬ (labelOf (pyStrip line) ≠ ""
             ∧ (labelOf (pyStrip line)).data <:+: (buffer.get ⟨j, hj⟩).data
             ∧ ('%' ∈ (buffer.get ⟨j, hj⟩).data ∨ '|' ∈ (buffer.get ⟨j, hj⟩).data))) →
        processLine buffer line = buffer.set i (pyStrip line)) := by
  have hne : pyStrip line ≠ "" := by
    intro hh
    rw [hh] at hp
    exact absurd hp (by decide)
  refine ⟨?_, ?_, ?_⟩
  · intro hlab
    unfold processLine
    dsimp only
    rw [if_neg hne, hp]
    have hfb : findBack buffer (labelOf (pyStrip line)) = none := by
      apply findBack_eq_none
      intro i hi hw
      simp [matchEntry, hlab]
    rw [hfb]
    simp
  · intro hno
    unfold processLine
    dsimp only
    rw [if_neg hne, hp]
    have hfb : findBack buffer (labelOf (pyStrip line)) = none := by
      apply findBack_eq_none
      intro i hi hw
      rw [← Bool.not_eq_true, matchEntry_iff]
      exact hno i hi hw
    rw [hfb]
    simp
  · intro i hi hw hmatch hafter
    unfold processLine
    dsimp only
    rw [if_neg hne, hp]
    have hfb : findBack buffer (labelOf (pyStrip line)) = some i := by
      apply findBack_eq_some hi hw
      · rw [matchEntry_iff]
        exact hmatch
      · intro j hj hij
        rw [← Bool.not_eq_true, matchEntry_iff]
        exact hafter j hj hij
    rw [hfb]
    simp

/-- Witness for C4's amended theorem: the most recent matching window
entry is overwritten in place. -/
theorem C4_witness :
    processLine ["Task: 10%|#| [e]"] "Task: 50%|##| [e]"
      = (["Task: 10%|#| [e]"].set 0 (pyStrip "Task: 50%|##| [e]")) :=
  (C4_lookback_overwrite_amended ["Task: 10%|#| [e]"] "Task: 50%|##| [e]" (by decide)).2.2
    0 (by decide) (by decide) (by decide)
    (by
      intro j hj hij _
      simp only [List.length_singleton] at hj
      omega)

/-! ## Claim C8 -/

/-- C8, counterexample to the claim as stated: a creation failure whose
message is `"Model ALREADY EXISTS!"` does not contain the substring
`"already exists"`, so under the claim it is "any other creation failure"
and should be fatal with no upload — but the code lowercases the message
first, tolerates it, and proceeds to a successful `upload_folder`. -/
theorem C8_case_insensitive_counterexample :
    containsStr "already exists" "Model ALREADY EXISTS!" = false
    ∧ (MigrationTool.upload_to_ms
        ⟨"/tmp/t", Except.ok "/tmp/t", Except.ok (), Except.ok false,
          Except.error "Model ALREADY EXISTS!", Except.ok (), Except.ok (), true, "x"⟩
        "/tmp/t" "me/a" "ms-tok" "model" "public" "apache-2.0" none).uploadFolderInvoked = true
    ∧ (MigrationTool.upload_to_ms
        ⟨"/tmp/t", Except.ok "/tmp/t", Except.ok (), Except.ok false,
          Except.error "Model ALREADY EXISTS!", Except.ok (), Except.ok (), true, "x"⟩
        "/tmp/t" "me/a" "ms-tok" "model" "public" "apache-2.0" none).ok = true := by
  refine ⟨by decide, by decide, by decide⟩

/-- C8 (amended): during uploading, the create-repository capability is
invoked only when the existence check returns false; a creation failure
whose lowercased message contains "already exists" is tolerated and the
migration proceeds to `upload_folder`; any other creation failure makes
the upload step fail with `"✗ Failed to create repository: ..."` carrying
that error message, without invoking `upload_folder`. -/
theorem C8_create_repo_amended (env : Env) (localPath repoId token repoType visibility
    licenseType : String) (cn : Option String)
    (htok : ¬ pyStrip token = "") (hlg : env.login = Except.ok ()) :
    (env.repoExists = Except.ok true →
      (MigrationTool.upload_to_ms env localPath repoId token repoType visibility licenseType
        cn).createInvoked = false)
    ∧ (∀ e, env.repoExists = Except.ok false → repoType = "model" →
        env.createModel = Except.error e → containsStr "already exists" (pyLower e) = true →
        (MigrationTool.upload_to_ms env localPath repoId token repoType visibility licenseType
          cn).uploadFolderInvoked = true)
    ∧ (∀ e, env.repoExists = Except.ok false → repoType = "model" →
        env.createModel = Except.error e → containsStr "already exists" (pyLower e) = false →
        (MigrationTool.upload_to_ms env localPath repoId token repoType visibility licenseType
            cn).ok = false
        ∧ (MigrationTool.upload_to_ms env localPath repoId token repoType visibility licenseType
            cn).msg = "✗ Failed to create repository: " ++ e
        ∧ (MigrationTool.upload_to_ms env localPath repoId token repoType visibility licenseType
            cn).uploadFolderInvoked = false)
    ∧ (∀ e, env.repoExists = Except.ok false → repoType ≠ "model" →
        (splitOnChar '/' repoId.data).length = 2 →
        env.createDataset = Except.error e → containsStr "already exists" (pyLower e) = true →
        (MigrationTool.upload_to_ms env localPath repoId token repoType visibility licenseType
          cn).uploadFolderInvoked = true)
    ∧ (∀ e, env.repoExists = Except.ok false → repoType ≠ "model" →
        (splitOnChar '/' repoId.data).length = 2 →
        env.createDataset = Except.error e → containsStr "already exists" (pyLower e) = false →
        (MigrationTool.upload_to_ms env localPath repoId token repoType visibility licenseType
            cn).ok = false
        ∧ (MigrationTool.upload_to_ms env localPath repoId token repoType visibility licenseType
            cn).msg = "✗ Failed to create repository: " ++ e
        ∧ (MigrationTool.upload_to_ms env localPath repoId token repoType visibility licenseType
            cn).uploadFolderInvoked = false) := by
  have hupm : MigrationTool.upload_to_ms env localPath repoId token repoType visibility
      licenseType cn = uploadBody env repoId repoType visibility licenseType cn := by
    unfold MigrationTool.upload_to_ms
    rw [if_neg htok]
  rw [hupm]
  refine ⟨?_, ?_, ?_, ?_, ?_⟩
  · intro hre
    unfold uploadBody
    rw [hlg, hre]
    dsimp only
    rw [if_pos rfl]
    unfold uploadFolderStep
    cases hup : env.uploadFolder <;> rfl
  · intro e hre hrt hcm htol
    unfold uploadBody
    rw [hlg, hre, hcm]
    dsimp only
    rw [if_neg Bool.false_ne_true, if_pos hrt]
    try dsimp only
    rw [if_pos htol]
    unfold uploadFolderStep
    cases hup : env.uploadFolder <;> rfl
  · intro e hre hrt hcm htol
    unfold uploadBody
    rw [hlg, hre, hcm]
    dsimp only
    rw [if_neg Bool.false_ne_true, if_pos hrt]
    try dsimp only
    rw [if_neg (by simp [htol])]
    exact ⟨rfl, rfl, rfl⟩
  · intro e hre hrt hp2 hcd htol
    unfold uploadBody
    rw [hlg, hre, hcd]
    dsimp only
    rw [if_neg Bool.false_ne_true, if_neg hrt, if_neg (fun hk => hk hp2)]
    try dsimp only
    rw [if_pos htol]
    unfold uploadFolderStep
    cases hup : env.uploadFolder <;> rfl
  · intro e hre hrt hp2 hcd htol
    unfold uploadBody
    rw [hlg, hre, hcd]
    dsimp only
    rw [if_neg Bool.false_ne_true, if_neg hrt, if_neg (fun hk => hk hp2)]
    try dsimp only
    rw [if_neg (by simp [htol])]
    exact ⟨rfl, rfl, rfl⟩

/-- Witness for C8's amended theorem: an existing repository is never
re-created. -/
theorem C8_witness :
    (MigrationTool.upload_to_ms okEnv "/tmp/hf2ms_a1" "me/modelA" "ms-tokA" "model" "public"
      "apache-2.0" none).createInvoked = false :=
  (C8_create_repo_amended okEnv "/tmp/hf2ms_a1" "me/modelA" "ms-tokA" "model" "public"
    "apache-2.0" none (by decide) rfl).1 rfl

/-! ## Claim C7 -/

theorem runCore_upload_folder_error {env : Env} {req : MigrationRequest} {e : String}
    (hdl : env.snapshotDownload = Except.ok env.tempDirName)
    (hlg : env.login = Except.ok ())
    (hre : env.repoExists = Except.ok true)
    (hup : env.uploadFolder = Except.error e)
    (h1 : pyStrip req.hfToken ≠ "") (h2 : pyStrip req.msToken ≠ "")
    (h3 : pyStrip req.hfRepoId ≠ "") (h4 : pyStrip req.msRepoId ≠ "")
    (h5 : '/' ∈ (pyStrip req.msRepoId).data) :
    (runCore env req).success = false
    ∧ (runCore env req).message = "✗ Upload failed: " ++ e
    ∧ (runCore env req).tempDir = some env.tempDirName
    ∧ (runCore env req).dirExists = true := by
  have hv1 : ¬(pyStrip req.hfToken = "" ∨ pyStrip req.msToken = "" ∨
      pyStrip req.hfRepoId = "" ∨ pyStrip req.msRepoId = "") := by tauto
  unfold runCore
  rw [if_neg hv1, if_neg (fun hq => hq h5)]
  unfold MigrationTool.download_from_hf
  rw [hdl]
  dsimp only
  rw [if_neg (by decide : ¬ (true = false))]
  have hupm : MigrationTool.upload_to_ms env ((some env.tempDirName).getD "")
      (pyStrip req.msRepoId) (pyStrip req.msToken) req.repoType req.visibility
      req.licenseType req.chineseName
      = uploadBody env (pyStrip req.msRepoId) req.repoType req.visibility
        req.licenseType req.chineseName := by
    unfold MigrationTool.upload_to_ms
    rw [if_neg (by rw [pyStrip_idem]; exact h2)]
  rw [hupm]
  unfold uploadBody
  rw [hlg, hre]
  dsimp only
  rw [if_pos rfl]
  unfold uploadFolderStep
  rw [hup]
  dsimp only
  exact ⟨rfl, rfl, rfl, rfl⟩

/-- C7: the cleanup step always runs; the success verdict is unchanged
whether or not `rmtree` succeeds; a removal failure when the temporary
directory was created and still exists only logs a warning line; and in
the fetch-succeeds / upload-fails scenario the final result has
`succeeded = false`, the temporary directory is gone, and the emitted
final status contains the upload collaborator's error text. -/
theorem C7_cleanup_always (env : Env) (req : MigrationRequest) :
    (run_migration env req).cleanupInvoked = true
    ∧ (run_migration { env with rmtreeOk := false } req).success
        = (run_migration { env with rmtreeOk := true } req).success
    ∧ (∀ td, env.rmtreeOk = false → (runCore env req).tempDir = some td →
        (runCore env req).dirExists = true →
        ("Warning: Failed to clean up temporary directory: " ++ env.rmtreeErr ++ "\n")
          ∈ (run_migration env req).prints)
    ∧ (∀ e, env.snapshotDownload = Except.ok env.tempDirName →
        env.login = Except.ok () → env.repoExists = Except.ok true →
        env.uploadFolder = Except.error e → env.rmtreeOk = true →
        pyStrip req.hfToken ≠ "" → pyStrip req.msToken ≠ "" →
        pyStrip req.hfRepoId ≠ "" → pyStrip req.msRepoId ≠ "" →
        '/' ∈ (pyStrip req.msRepoId).data →
        (MigrationTool.migrate env req).run.success = false
        ∧ (MigrationTool.migrate env req).run.dirExistsAfter = false
        ∧ e.data <:+: (MigrationTool.migrate env req).finalStatus.data) := by
  refine ⟨rfl, rfl, ?_, ?_⟩
  · intro td hrm htd hde
    unfold run_migration
    dsimp only
    rw [htd, hde]
    unfold MigrationTool.cleanup
    dsimp only
    rw [if_pos rfl, if_neg (by simp [hrm])]
    simp
  · intro e hdl hlg hre hup hrm h1 h2 h3 h4 h5
    obtain ⟨hsucc, hmsg, htd, hde⟩ := runCore_upload_folder_error hdl hlg hre hup h1 h2 h3 h4 h5
    have hsucc' : (run_migration env req).success = false := hsucc
    refine ⟨hsucc', ?_, ?_⟩
    · show (MigrationTool.cleanup env (runCore env req).tempDir
        (runCore env req).dirExists).dirExists = false
      rw [htd, hde]
      unfold MigrationTool.cleanup
      dsimp only
      rw [if_pos rfl, if_pos hrm]
    · rw [migrate_failure_shape hsucc']
      have hm : (run_migration env req).message = "✗ Upload failed: " ++ e := hmsg
      rw [hm]
      rw [String.data_append, String.data_append, String.data_append]
      exact (((List.suffix_append _ _).trans (List.suffix_append _ _)).trans
        (List.suffix_append _ _)).isInfix

/-- Witness for C7 in the fetch-succeeds, upload-fails scenario. -/
theorem C7_witness :
    (MigrationTool.migrate
        ⟨"/tmp/w", Except.ok "/tmp/w", Except.ok (), Except.ok true, Except.ok (),
          Except.ok (), Except.error "quota exceeded", true, "x"⟩
        ⟨"hf_w", "ms_w", "org/w", "me/w", "model", "public", "mit", none⟩).run.success = false
    ∧ (MigrationTool.migrate
        ⟨"/tmp/w", Except.ok "/tmp/w", Except.ok (), Except.ok true, Except.ok (),
          Except.ok (), Except.error "quota exceeded", true, "x"⟩
        ⟨"hf_w", "ms_w", "org/w", "me/w", "model", "public", "mit", none⟩).run.dirExistsAfter
        = false
    ∧ "quota exceeded".data <:+:
        (MigrationTool.migrate
          ⟨"/tmp/w", Except.ok "/tmp/w", Except.ok (), Except.ok true, Except.ok (),
            Except.ok (), Except.error "quota exceeded", true, "x"⟩
          ⟨"hf_w", "ms_w", "org/w", "me/w", "model", "public", "mit", none⟩).finalStatus.data :=
  (C7_cleanup_always
      ⟨"/tmp/w", Except.ok "/tmp/w", Except.ok (), Except.ok true, Except.ok (),
        Except.ok (), Except.error "quota exceeded", true, "x"⟩
      ⟨"hf_w", "ms_w", "org/w", "me/w", "model", "public", "mit", none⟩).2.2.2
    "quota exceeded" rfl rfl rfl rfl rfl (by decide) (by decide) (by decide) (by decide)
    (by decide)

/-! ## Claim C9 -/

/-- C9: the last value the Orchestrator yields is the reconciled log with
the terminal verdict appended — on success it contains the completion
message and the destination URL built from the destination id, on failure
it contains the first fatal error message encountered (as given by the
spec-side `firstFatalError`); and the concrete end-to-end model migration
to `me/modelA` with all collaborators succeeding ends with
`succeeded = true` and a final message containing `me/modelA`. -/
theorem C9_final_verdict :
    (∀ (env : Env) (req : MigrationRequest),
      ((run_migration env req).success = true →
        "✅ Migration completed successfully!".data <:+:
          (MigrationTool.migrate env req).finalStatus.data
        ∧ ("https://www.modelscope.cn/models/" ++ pyStrip req.msRepoId).data <:+:
          (MigrationTool.migrate env req).finalStatus.data)
      ∧ ((run_migration env req).success = false →
        ∃ e, firstFatalError env req = some e ∧
          e.data <:+: (MigrationTool.migrate env req).finalStatus.data))
    ∧ ((MigrationTool.migrate okEnv reqModelA).run.success = true
      ∧ "me/modelA".data <:+: (MigrationTool.migrate okEnv reqModelA).finalStatus.data) := by
  constructor
  · intro env req
    constructor
    · intro hs
      rw [migrate_success_shape hs]
      constructor
      · have hdec : ("\n\n✅ Migration completed successfully!" : String)
            = "\n\n" ++ "✅ Migration completed successfully!" := by decide
        rw [hdec, String.data_append, String.data_append, String.data_append]
        refine ⟨(joinLines (updateOutput [] (run_migration env req).prints)).data
          ++ "\n\n".data,
          ("\nYour " ++ req.repoType
            ++ " is available at: https://www.modelscope.cn/models/"
            ++ pyStrip req.msRepoId).data, ?_⟩
        simp [List.append_assoc]
      · have hdec : (" is available at: https://www.modelscope.cn/models/" : String)
            = " is available at: " ++ "https://www.modelscope.cn/models/" := by decide
        rw [hdec]
        rw [String.data_append, String.data_append, String.data_append,
          String.data_append, String.data_append, String.data_append]
        refine ⟨((joinLines (updateOutput [] (run_migration env req).prints)).data
            ++ "\n\n✅ Migration completed successfully!".data)
            ++ ("\nYour ".data ++ req.repoType.data ++ " is available at: ".data), [], ?_⟩
        simp [List.append_assoc]
    · intro hf
      obtain ⟨e, he, hinf⟩ := run_failure_first_error env req hf
      refine ⟨e, he, ?_⟩
      rw [migrate_failure_shape hf]
      have h2 : (run_migration env req).message.data <:+:
          (joinLines (updateOutput [] (run_migration env req).prints)
            ++ ("\n\n❌ Migration failed: " ++ (run_migration env req).message)).data := by
        rw [String.data_append, String.data_append]
        exact ((List.suffix_append _ _).trans (List.suffix_append _ _)).isInfix
      exact hinf.trans h2
  · exact ⟨by decide, by decide⟩

/-- Witness for C9 on the all-succeeding `me/modelA` run. -/
theorem C9_witness :
    ("https://www.modelscope.cn/models/" ++ pyStrip reqModelA.msRepoId).data <:+:
      (MigrationTool.migrate okEnv reqModelA).finalStatus.data :=
  ((C9_final_verdict.1 okEnv reqModelA).1 (by decide)).2

/-! ## Claim C10 -/

/-- C10: every successful migration reports the destination URL under the
`/models/` path — `https://www.modelscope.cn/models/<destination id>` —
even when the migrated repository is a dataset, in which case the final
status ends with "Your dataset is available at:" followed by that
models-path URL. -/
theorem C10_models_url_for_datasets (env : Env) (req : MigrationRequest)
    (hs : (MigrationTool.migrate env req).run.success = true) :
    ("https://www.modelscope.cn/models/" ++ pyStrip req.msRepoId).data <:+:
      (MigrationTool.migrate env req).finalStatus.data
    ∧ (req.repoType = "dataset" →
        ("\nYour dataset is available at: https://www.modelscope.cn/models/"
          ++ pyStrip req.msRepoId).data <:+ (MigrationTool.migrate env req).finalStatus.data) := by
  have hs' : (run_migration env req).success = true := hs
  constructor
  · rw [migrate_success_shape hs']
    have hdec : (" is available at: https://www.modelscope.cn/models/" : String)
        = " is available at: " ++ "https://www.modelscope.cn/models/" := by decide
    rw [hdec]
    rw [String.data_append, String.data_append, String.data_append,
      String.data_append, String.data_append, String.data_append]
    refine ⟨((joinLines (updateOutput [] (run_migration env req).prints)).data
        ++ "\n\n✅ Migration completed successfully!".data)
        ++ ("\nYour ".data ++ req.repoType.data ++ " is available at: ".data), [], ?_⟩
    simp [List.append_assoc]
  · intro hds
    rw [migrate_success_shape hs', hds]
    have hdec : ("\nYour dataset is available at: https://www.modelscope.cn/models/" : String)
        = "\nYour " ++ "dataset" ++ " is available at: https://www.modelscope.cn/models/" := by
      decide
    rw [hdec]
    rw [String.data_append, String.data_append, String.data_append,
      String.data_append, String.data_append, String.data_append]
    refine ⟨(joinLines (updateOutput [] (run_migration env req).prints)).data
      ++ "\n\n✅ Migration completed successfully!".data, ?_⟩
    simp [List.append_assoc]

/-- Witness for C10 on a successful dataset migration. -/
theorem C10_witness :
    ("\nYour dataset is available at: https://www.modelscope.cn/models/"
      ++ pyStrip dsReq.msRepoId).data <:+
      (MigrationTool.migrate dsEnv dsReq).finalStatus.data :=
  (C10_models_url_for_datasets dsEnv dsReq (by decide)).2 rfl

end Hf2Ms
